import Mathlib

/-!
Verification of the tinyrv out-of-order RISC-V core (decoder in
`src/decode.cpp`, Tomasulo pipeline stages in `src/ooo.cpp`).

The decoder and the four pipeline stage bodies are translated directly from
the C++ sources.  The container classes they use (RAT, ROB, RS, CDB, RST,
functional units, `Instr`, `sext`) live in headers that are not part of the
two source files, so they are modelled from the specification; each such
definition carries a doc comment starting `Modelled from the spec:`.
-/

namespace TinyRV

/-- Opcode enumeration from the source (`types.h`).  Values are the 7-bit
RV32I major opcode encodings. -/
inductive Opcode
  | R | L | I | S | B | LUI | AUIPC | JAL | JALR | SYS | FENCE
deriving DecidableEq, Repr, Inhabited

/-- Instruction class enumeration (`InstType` in the source). -/
inductive InstType
  | R | I | S | B | U | J
deriving DecidableEq, Repr, Inhabited

/-- ALU micro-op enumeration (`AluOp` in the source). -/
inductive AluOp
  | NONE | ADD | SUB | SLL | SRL | SRA | LTI | LTU | XOR | OR | AND
deriving DecidableEq, Repr, Inhabited

/-- Branch micro-op enumeration (`BrOp` in the source). -/
inductive BrOp
  | NONE | BEQ | BNE | BLT | BGE | BLTU | BGEU | JAL | JALR
deriving DecidableEq, Repr, Inhabited

/-- Functional-unit type enumeration (`FUType` in the source).  The pipeline
indexes the FU array by the numeric value: ALU=0, BRU=1, LSU=2, SFU=3. -/
inductive FUType
  | ALU | BRU | LSU | SFU | NONE
deriving DecidableEq, Repr, Inhabited

/-- Numeric value of an `FUType`, used for `FUs_.at((int)fu_type)`. -/
def FUType.toIdx : FUType → Nat
  | .ALU => 0
  | .BRU => 1
  | .LSU => 2
  | .SFU => 3
  | .NONE => 4

/-- Modelled from the spec: the 7-bit major-opcode values of the `Opcode`
enum (`types.h` is not among the sources; §6 fixes the encoding as bit-exact
RV32I).  `decode` casts the low 7 bits to `Opcode` and then fails when the
value is not a key of `sc_instTable`; this function fuses the cast with that
membership test. -/
def opcodeOf : Nat → Option Opcode
  | 0x33 => some .R
  | 0x03 => some .L
  | 0x13 => some .I
  | 0x23 => some .S
  | 0x63 => some .B
  | 0x37 => some .LUI
  | 0x17 => some .AUIPC
  | 0x6F => some .JAL
  | 0x67 => some .JALR
  | 0x73 => some .SYS
  | 0x0F => some .FENCE
  | _ => none

/-- The static opcode → instruction-class table `sc_instTable`
(decode.cpp lines 31-43). -/
def sc_instTable : Opcode → InstType
  | .R => .R
  | .L => .I
  | .I => .I
  | .S => .S
  | .B => .B
  | .LUI => .U
  | .AUIPC => .U
  | .JAL => .J
  | .JALR => .I
  | .SYS => .I
  | .FENCE => .I

/-- The `ExeFlags` bit-field set (`instr.h`; spec §3 lists the named bits).
All bits default to 0 (`memset` in decode.cpp line 219). -/
structure ExeFlags where
  use_rd : Bool := false
  use_rs1 : Bool := false
  use_rs2 : Bool := false
  use_imm : Bool := false
  alu_s1_PC : Bool := false
  alu_s1_inv : Bool := false
  alu_s1_rs1 : Bool := false
  alu_s2_imm : Bool := false
  alu_s2_csr : Bool := false
  is_load : Bool := false
  is_store : Bool := false
  is_csr : Bool := false
  is_exit : Bool := false
deriving DecidableEq, Repr, Inhabited

/-- Modelled from the spec: the decoded-instruction descriptor (`Instr` in
`instr.h`, spec §3); decode.cpp populates every field at lines 544-554. -/
structure Instr where
  uuid : Nat := 0
  PC : Nat := 0
  opcode : Opcode := .R
  rd : Nat := 0
  rs1 : Nat := 0
  rs2 : Nat := 0
  imm : Nat := 0
  func3 : Nat := 0
  func7 : Nat := 0
  alu_op : AluOp := .NONE
  br_op : BrOp := .NONE
  exe_flags : ExeFlags := {}
  fu_type : FUType := .NONE
deriving DecidableEq, Repr, Inhabited

/-- Modelled from the spec: `sext(v, n)` from `util.h` (not among the
sources); the glossary defines it as sign-extension of the low `n` bits of
`v` to 32 bits. -/
def sext (v n : Nat) : Nat :=
  let low := v % 2 ^ n
  if 2 ^ (n - 1) ≤ low then low + (2 ^ 32 - 2 ^ n) else low

/-- Result of `Core::decode`.  The C++ function returns a null pointer for an
unrecognized opcode (`invalid`) and calls `std::abort()` on an unrecognized
func3/func7/imm combination inside a recognized opcode (`aborted`). -/
inductive DecodeResult
  | ok (instr : Instr)
  | invalid
  | aborted
deriving DecidableEq, Repr, Inhabited

/-- Instruction-class decoding: the `switch (inst_type)` of decode.cpp
lines 225-320, producing the `exe_flags` set so far and the immediate.
`none` models the `std::abort()` of the unreachable `default` branches. -/
def classDecode (opcode : Opcode) (ic func3 rd rs2 func7 : Nat) :
    Option (ExeFlags × Nat) :=
  match sc_instTable opcode with
  | InstType.R =>
    some ({ use_rd := true, use_rs1 := true, use_rs2 := true }, 0)
  | InstType.I =>
    match opcode with
    | .I =>
      let f : ExeFlags :=
        { use_rd := true, use_rs1 := true, use_imm := true, alu_s2_imm := true }
      if func3 = 0x1 ∨ func3 = 0x5 then
        some (f, rs2)
      else
        some (f, sext (ic >>> 20) 12)
    | .L | .JALR =>
      some ({ use_rd := true, use_rs1 := true, use_imm := true,
              alu_s2_imm := true }, sext (ic >>> 20) 12)
    | .SYS =>
      let imm12 := ic >>> 20
      let f : ExeFlags :=
        if func3 ≠ 0 then
          if func3 < 5 then
            { use_imm := true, use_rd := true, use_rs1 := true }
          else
            { use_imm := true, use_rd := true }
        else
          { use_imm := true }
      some (f, imm12)
    | .FENCE => some ({}, 0)
    | _ => none
  | InstType.S =>
    some ({ use_rs1 := true, use_rs2 := true, use_imm := true,
            alu_s2_imm := true }, sext ((func7 <<< 5) ||| rd) 12)
  | InstType.B =>
    let bit_11 := rd &&& 0x1
    let bits_4_1 := rd >>> 1
    let bit_10_5 := func7 &&& 0x3f
    let bit_12 := func7 >>> 6
    let imm12 :=
      (bits_4_1 <<< 1) ||| (bit_10_5 <<< 5) ||| (bit_11 <<< 11) ||| (bit_12 <<< 12)
    some ({ use_rs1 := true, use_rs2 := true, use_imm := true,
            alu_s2_imm := true }, sext imm12 13)
  | InstType.U =>
    some ({ use_rd := true, use_imm := true, alu_s2_imm := true },
          (ic >>> 12) <<< 12)
  | InstType.J =>
    let unordered := ic >>> 12
    let bits_19_12 := unordered &&& 0xff
    let bit_11 := (unordered >>> 8) &&& 0x1
    let bits_10_1 := (unordered >>> 9) &&& 0x3ff
    let bit_20 := (unordered >>> 19) &&& 0x1
    let imm20 :=
      (bits_10_1 <<< 1) ||| (bit_11 <<< 11) ||| (bits_19_12 <<< 12) ||| (bit_20 <<< 20)
    some ({ use_rd := true, use_imm := true, alu_s2_imm := true },
          sext imm20 21)

/-- The x0-discard rule of decode.cpp lines 322-325: clear `use_rd` when the
destination is register 0. -/
def rd0Fix (f : ExeFlags) (rd : Nat) : ExeFlags :=
  if f.use_rd && rd == 0 then { f with use_rd := false } else f

/-- Instruction-opcode decoding: the `switch (opcode)` of decode.cpp
lines 333-526 selecting `alu_op`, `br_op` and further flags.  `none` models
`std::abort()` on unrecognized func3/imm combinations. -/
def opDecode (opcode : Opcode) (func3 func7 imm : Nat) (f : ExeFlags) :
    Option (AluOp × BrOp × ExeFlags) :=
  match opcode with
  | .LUI => some (.ADD, .NONE, f)
  | .AUIPC => some (.ADD, .NONE, { f with alu_s1_PC := true })
  | .R | .I =>
    match func3 with
    | 0 =>
      if opcode = .R ∧ func7 ≠ 0 then some (.SUB, .NONE, f)
      else some (.ADD, .NONE, f)
    | 1 => some (.SLL, .NONE, f)
    | 2 => some (.LTI, .NONE, f)
    | 3 => some (.LTU, .NONE, f)
    | 4 => some (.XOR, .NONE, f)
    | 5 => if func7 ≠ 0 then some (.SRA, .NONE, f) else some (.SRL, .NONE, f)
    | 6 => some (.OR, .NONE, f)
    | 7 => some (.AND, .NONE, f)
    | _ => none
  | .B =>
    let f := { f with alu_s1_PC := true }
    match func3 with
    | 0 => some (.ADD, .BEQ, f)
    | 1 => some (.ADD, .BNE, f)
    | 4 => some (.ADD, .BLT, f)
    | 5 => some (.ADD, .BGE, f)
    | 6 => some (.ADD, .BLTU, f)
    | 7 => some (.ADD, .BGEU, f)
    | _ => none
  | .JAL => some (.ADD, .JAL, { f with alu_s1_PC := true })
  | .JALR => some (.ADD, .JALR, f)
  | .L => some (.ADD, .NONE, { f with is_load := true })
  | .S => some (.ADD, .NONE, { f with is_store := true })
  | .SYS =>
    if func3 = 0 then
      match imm with
      | 0x000 => some (.ADD, .NONE, { f with is_exit := true })
      | 0x001 => some (.ADD, .NONE, { f with is_exit := true })
      | 0x002 => some (.ADD, .NONE, f)
      | 0x102 => some (.ADD, .NONE, f)
      | 0x302 => some (.ADD, .NONE, f)
      | _ => none
    else
      let f := { f with is_csr := true, alu_s2_csr := true }
      match func3 with
      | 1 => some (.ADD, .NONE, f)
      | 2 => some (.OR, .NONE, f)
      | 3 => some (.AND, .NONE, { f with alu_s1_inv := true })
      | 5 => some (.ADD, .NONE, { f with alu_s1_rs1 := true })
      | 6 => some (.OR, .NONE, { f with alu_s1_rs1 := true })
      | 7 => some (.AND, .NONE, { f with alu_s1_inv := true, alu_s1_rs1 := true })
      | _ => none
  | .FENCE => some (.NONE, .NONE, f)

/-- Functional-unit routing of decode.cpp lines 533-541. -/
def fuRoute (f : ExeFlags) (br : BrOp) : FUType :=
  if f.is_load || f.is_store then .LSU
  else if f.is_csr then .SFU
  else if br ≠ .NONE then .BRU
  else .ALU

/-- `Core::decode` (decode.cpp lines 201-557).  The argument is taken modulo
`2^32` to model the `uint32_t` parameter type. -/
def decode (instr_code PC uuid : Nat) : DecodeResult :=
  let ic := instr_code % 2 ^ 32
  let func3 := (ic >>> 12) &&& 0x7
  let func7 := (ic >>> 25) &&& 0x7f
  let rd := (ic >>> 7) &&& 0x1f
  let rs1 := (ic >>> 15) &&& 0x1f
  let rs2 := (ic >>> 20) &&& 0x1f
  match opcodeOf (ic &&& 0x7f) with
  | none => .invalid
  | some opcode =>
    match classDecode opcode ic func3 rd rs2 func7 with
    | none => .aborted
    | some (flags0, imm) =>
      let flags1 := rd0Fix flags0 rd
      match opDecode opcode func3 func7 imm flags1 with
      | none => .aborted
      | some (alu_op, br_op, flags2) =>
        .ok { uuid := uuid, PC := PC, opcode := opcode, rd := rd, rs1 := rs1,
              rs2 := rs2, imm := imm, func3 := func3, func7 := func7,
              alu_op := alu_op, br_op := br_op, exe_flags := flags2,
              fu_type := fuRoute flags2 br_op }

/-- Scenario 1 of §8, decoder part: `ADDI x1, x0, 5`. -/
theorem decode_addi_check : decode 0x00500093 0 0 = DecodeResult.ok
    { uuid := 0, PC := 0, opcode := .I, rd := 1, rs1 := 0, rs2 := 5,
      imm := 5, func3 := 0, func7 := 0, alu_op := .ADD, br_op := .NONE,
      exe_flags := { use_rd := true, use_rs1 := true, use_imm := true,
                     alu_s2_imm := true },
      fu_type := .ALU } := by decide

/-- Scenario 6 of §8, decoder part: `ECALL` sets `is_exit`. -/
theorem decode_ecall_check : decode 0x00000073 0 0 = DecodeResult.ok
    { uuid := 0, PC := 0, opcode := .SYS, rd := 0, rs1 := 0, rs2 := 0,
      imm := 0, func3 := 0, func7 := 0, alu_op := .ADD, br_op := .NONE,
      exe_flags := { use_imm := true, is_exit := true },
      fu_type := .ALU } := by decide

/-- An unrecognized opcode field decodes to none. -/
theorem decode_invalid_check : decode 0xFFFFFFFF 0 0 = DecodeResult.invalid := by
  decide

/-! ## The out-of-order engine state (containers modelled from the spec) -/

/-- Modelled from the spec: a reorder-buffer entry (§3): instruction,
result slot and ready bit. -/
structure ROBEntry where
  instr : Instr := {}
  result : Nat := 0
  ready : Bool := false
deriving DecidableEq, Repr, Inhabited

/-- Modelled from the spec: the ROB (§4.3), a circular FIFO over a fixed
slot array; `allocate` returns the absolute slot index, `pop` retires the
head.  Popped slots keep their stale contents, as a C++ circular buffer
does. -/
structure ROB where
  slots : List ROBEntry
  head : Nat := 0
  count : Nat := 0
deriving DecidableEq, Repr, Inhabited

def ROB.full (rob : ROB) : Bool := rob.count == rob.slots.length

def ROB.isEmpty (rob : ROB) : Bool := rob.count == 0

def ROB.getEntry (rob : ROB) (i : Nat) : ROBEntry := rob.slots.getD i {}

/-- Modelled from the spec: `allocate(instr) → rob_index` appends at the
tail of the circular buffer and returns the absolute slot index. -/
def ROB.allocate (rob : ROB) (instr : Instr) : ROB × Nat :=
  let tail := (rob.head + rob.count) % rob.slots.length
  ({ rob with slots := rob.slots.set tail { instr := instr },
              count := rob.count + 1 }, tail)

/-- Modelled from the spec: `update(cdb_data)` sets `result` and
`ready = true` for the entry at `cdb_data.rob_index` (§4.3). -/
def ROB.update (rob : ROB) (rob_index result : Nat) : ROB :=
  let e := rob.slots.getD rob_index {}
  { rob with slots :=
      rob.slots.set rob_index { e with result := result, ready := true } }

/-- Modelled from the spec: `pop()` retires the head entry. -/
def ROB.pop (rob : ROB) : ROB :=
  { rob with head := (rob.head + 1) % rob.slots.length, count := rob.count - 1 }

/-- Modelled from the spec: a reservation-station entry (§3). -/
structure RSEntry where
  valid : Bool := false
  running : Bool := false
  instr : Instr := {}
  rob_index : Nat := 0
  rs1_tag : Int := -1
  rs2_tag : Int := -1
  rs1_data : Nat := 0
  rs2_data : Nat := 0
deriving DecidableEq, Repr, Inhabited

/-- Modelled from the spec: `operands_ready() ⇔ rs1_tag == -1 ∧ rs2_tag == -1`
(§3). -/
def RSEntry.operands_ready (e : RSEntry) : Bool :=
  e.rs1_tag == -1 && e.rs2_tag == -1

/-- Modelled from the spec: `update_operands(cdb_data)` (§4.4) — for each
operand tag matching `cdb_data.rs_index`, set the corresponding data to
`cdb_data.result` and clear the tag. -/
def RSEntry.update_operands (e : RSEntry) (rs_index result : Nat) : RSEntry :=
  let e :=
    if e.rs1_tag == Int.ofNat rs_index then
      { e with rs1_data := result, rs1_tag := -1 }
    else e
  if e.rs2_tag == Int.ofNat rs_index then
    { e with rs2_data := result, rs2_tag := -1 }
  else e

/-- Modelled from the spec: the reservation-station pool (§4.4), a
fixed-size array indexed by rs_index. -/
structure RS where
  entries : List RSEntry
deriving DecidableEq, Repr, Inhabited

def RS.full (rs : RS) : Bool := rs.entries.all (·.valid)

def RS.size (rs : RS) : Nat := rs.entries.length

def RS.getEntry (rs : RS) (i : Nat) : RSEntry := rs.entries.getD i {}

/-- Index of the free slot that `RS::issue` selects (the lowest-index
invalid entry). -/
def RS.freeIdx (rs : RS) : Option Nat := rs.entries.findIdx? (fun e => !e.valid)

/-- Modelled from the spec: `issue(...) → rs_index` (§4.4) — select a free
slot, mark it valid with `running = false`, store operands and tags, and
return its index. -/
def RS.issueEntry (rs : RS) (rob_index : Nat) (rs1_tag rs2_tag : Int)
    (rs1_data rs2_data : Nat) (instr : Instr) : RS × Nat :=
  match rs.freeIdx with
  | some i =>
    ({ entries := rs.entries.set i
        { valid := true, running := false, instr := instr,
          rob_index := rob_index, rs1_tag := rs1_tag, rs2_tag := rs2_tag,
          rs1_data := rs1_data, rs2_data := rs2_data } }, i)
  | none => (rs, 0)

/-- Modelled from the spec: `release(rs_index)` clears valid and running
(§4.4). -/
def RS.release (rs : RS) (i : Nat) : RS :=
  { entries := rs.entries.set i
      { (rs.entries.getD i {}) with valid := false, running := false } }

/-- Sets `running := true` on entry `i` (the execute stage's dispatch mark,
ooo.cpp line 157). -/
def RS.setRunning (rs : RS) (i : Nat) : RS :=
  { entries := rs.entries.set i
      { (rs.entries.getD i {}) with running := true } }

/-- Modelled from the spec: the CDB payload `{result, rob_index, rs_index}`
(§4.5). -/
structure CDBData where
  result : Nat := 0
  rob_index : Nat := 0
  rs_index : Nat := 0
deriving DecidableEq, Repr, Inhabited

/-- Modelled from the spec: CDB `push` fails (drops the value) if the
single-slot channel is already full (§4.5). -/
def cdbPush (cdb : Option CDBData) (d : CDBData) : Option CDBData :=
  match cdb with
  | none => some d
  | some x => some x

/-- Modelled from the spec: the RAT (§4.2) — per architectural register,
either no mapping or the ROB index of the most recent in-flight producer. -/
def RAT := List (Option Nat)

instance : DecidableEq RAT := by unfold RAT; infer_instance

def ratExists (rat : RAT) (r : Nat) : Bool := (rat.getD r none).isSome

/-- Modelled from the spec: `get(r)`; with no mapping the −1 "no producer"
sentinel of the source (§9) is returned. -/
def ratGet (rat : RAT) (r : Nat) : Int :=
  match rat.getD r none with
  | some t => Int.ofNat t
  | none => -1

def ratSet (rat : RAT) (r t : Nat) : RAT := List.set rat r (some t)

def ratClear (rat : RAT) (r : Nat) : RAT := List.set rat r none

/-- Modelled from the spec: the RST map (§3).  The source indexes it with
possibly-negative keys (`RST_[rs1_rsid]` where the tag may be −1), so it is
modelled as a finite map over `Int` with insert-or-assign update. -/
def RST := List (Int × Nat)

instance : DecidableEq RST := by unfold RST; infer_instance

def rstSet (m : RST) (k : Int) (v : Nat) : RST :=
  (k, v) :: List.filter (fun p => p.1 != k) m

def rstGet (m : RST) (k : Int) : Option Nat :=
  (List.find? (fun p => p.1 == k) m).map (·.2)

/-- Modelled from the spec: a functional unit under the §4.7 contract — a
single pending operation with a latency countdown; `done()` when the
countdown has elapsed; `get_output()` yields `{result, rob_index, rs_index}`;
`clear()` idles the unit.  The datapath (how the result value is computed)
is out of scope and is supplied as a parameter at issue time. -/
structure FU where
  busy : Bool := false
  countdown : Nat := 0
  out : CDBData := {}
deriving DecidableEq, Repr, Inhabited

/-- Modelled from the spec: `execute()` advances the internal latency by one
cycle. -/
def FU.tick (fu : FU) : FU :=
  if fu.busy && fu.countdown != 0 then { fu with countdown := fu.countdown - 1 }
  else fu

def FU.done (fu : FU) : Bool := fu.busy && fu.countdown == 0

def FU.clear (fu : FU) : FU := { fu with busy := false }

/-- Modelled from the spec: `issue(instr, rob_index, rs_index, op1, op2)`
accepts one operation; `compute` abstracts the out-of-scope datapath and
`lat` the internal latency. -/
def FU.issueOp (compute : Instr → Nat → Nat → Nat) (lat : Nat) (_fu : FU)
    (instr : Instr) (rob_index rs_index op1 op2 : Nat) : FU :=
  { busy := true, countdown := lat,
    out := { result := compute instr op1 op2, rob_index := rob_index,
             rs_index := rs_index } }

/-- The core state: every container the four pipeline stages of ooo.cpp
touch.  The issue queue and register file are the external collaborators of
§6 (the queue is only drained by the core). -/
structure Core where
  issue_queue : List Instr
  reg_file : List Nat
  rat : RAT
  rob : ROB
  rs : RS
  rst : RST
  cdb : Option CDBData
  fus : List FU
  retired : Nat := 0
  exited : Bool := false
deriving DecidableEq

/-- `Core::issue` (ooo.cpp lines 26-121), translated statement by
statement. -/
def Core.issue (c : Core) : Core :=
  match c.issue_queue with
  | [] => c
  | instr :: rest =>
    let exe_flags := instr.exe_flags
    if c.rs.full then c
    else if c.rob.full then c
    else
      let rs1 := instr.rs1
      let rs2 := instr.rs2
      let p1 : Nat × Int :=
        if exe_flags.use_rs1 then
          if ratExists c.rat rs1 then
            let rob_id := (ratGet c.rat rs1).toNat
            let rob_entry := c.rob.getEntry rob_id
            if rob_entry.ready then (rob_entry.result, -1)
            else (0, Int.ofNat rob_id)
          else (c.reg_file.getD rs1 0, -1)
        else (0, -1)
      let p2 : Nat × Int :=
        if exe_flags.use_rs2 then
          if ratExists c.rat rs2 then
            let rob_id := (ratGet c.rat rs2).toNat
            let rob_entry := c.rob.getEntry rob_id
            if rob_entry.ready then (rob_entry.result, -1)
            else (0, Int.ofNat rob_id)
          else (c.reg_file.getD rs2 0, -1)
        else (0, -1)
      let rs1_data := p1.1
      let rs1_rsid := p1.2
      let rs2_data := p2.1
      let rs2_rsid := p2.2
      let alloc := c.rob.allocate instr
      let rob1 := alloc.1
      let rob_index := alloc.2
      let rat1 := if exe_flags.use_rd then ratSet c.rat instr.rd rob_index else c.rat
      let iss := c.rs.issueEntry rob_index rs1_rsid rs2_rsid rs1_data rs2_data instr
      let rs1pool := iss.1
      let rs_index := iss.2
      let rst1 := rstSet c.rst rs1_rsid rs_index
      let rst2 := rstSet rst1 rs2_rsid rs_index
      { c with issue_queue := rest, rob := rob1, rat := rat1, rs := rs1pool,
               rst := rst2 }

/-- The CDB-publishing scan of `Core::execute` (ooo.cpp lines 134-142): for
every functional unit, in order, that reports `done()`, push its output on
the CDB and clear it.  (The loop has no break, so it does this for every
done unit, not only the first.) -/
def publishScan : List FU → Option CDBData → List FU × Option CDBData
  | [], cdb => ([], cdb)
  | fu :: rest, cdb =>
    if fu.done then
      let r := publishScan rest (cdbPush cdb fu.out)
      (fu.clear :: r.1, r.2)
    else
      let r := publishScan rest cdb
      (fu :: r.1, r.2)

/-- The dispatch scan of `Core::execute` (ooo.cpp lines 149-159): each
valid, not-running, operands-ready, unlocked RS entry is issued to the
functional unit selected by its `fu_type` and marked running.  `locked`
abstracts the under-specified LSU lock predicate of §4.4. -/
def dispatchScan (compute : Instr → Nat → Nat → Nat) (lat : Nat)
    (locked : RS → Nat → Bool) (rs : RS) (fus : List FU) : Nat → RS × List FU
  | 0 => (rs, fus)
  | n + 1 =>
    let rs_index := rs.size - (n + 1)
    let entry := rs.getEntry rs_index
    if entry.valid && !entry.running && entry.operands_ready &&
        !locked rs rs_index then
      let fu_idx := entry.instr.fu_type.toIdx
      let fu := fus.getD fu_idx {}
      let fu' := FU.issueOp compute lat fu entry.instr entry.rob_index rs_index
        entry.rs1_data entry.rs2_data
      dispatchScan compute lat locked (rs.setRunning rs_index)
        (fus.set fu_idx fu') n
    else
      dispatchScan compute lat locked rs fus n

/-- `Core::execute` (ooo.cpp lines 123-160): tick all FUs, publish done FUs
on the CDB, then dispatch ready RS entries to FUs. -/
def Core.execute (compute : Instr → Nat → Nat → Nat) (lat : Nat)
    (locked : RS → Nat → Bool) (c : Core) : Core :=
  let fus := c.fus.map FU.tick
  let pub := publishScan fus c.cdb
  let disp := dispatchScan compute lat locked c.rs pub.1 c.rs.size
  { c with fus := disp.2, cdb := pub.2, rs := disp.1 }

/-- `Core::writeback` (ooo.cpp lines 162-193). -/
def Core.writeback (c : Core) : Core :=
  match c.cdb with
  | none => c
  | some cdb_data =>
    let rs : RS :=
      { entries := c.rs.entries.map
          (fun e => e.update_operands cdb_data.rs_index cdb_data.result) }
    let rs := rs.release cdb_data.rs_index
    let rob := c.rob.update cdb_data.rob_index cdb_data.result
    { c with rs := rs, rob := rob, cdb := none }

/-- `Core::commit` (ooo.cpp lines 195-235). -/
def Core.commit (c : Core) : Core :=
  if c.rob.isEmpty then c
  else
    let head_index := c.rob.head
    let rob_head := c.rob.getEntry head_index
    if rob_head.ready then
      let instr := rob_head.instr
      let exe_flags := instr.exe_flags
      let rfrat :=
        if exe_flags.use_rd then
          (c.reg_file.set instr.rd rob_head.result,
           if ratGet c.rat instr.rd == Int.ofNat head_index then
             ratClear c.rat instr.rd
           else c.rat)
        else (c.reg_file, c.rat)
      { c with reg_file := rfrat.1, rat := rfrat.2, rob := c.rob.pop,
               retired := c.retired + 1,
               exited := c.exited || exe_flags.is_exit }
    else c

/-- One simulated cycle: the driver invokes the stages in reverse pipeline
order — commit, writeback, execute, issue (§5). -/
def Core.cycle (compute : Instr → Nat → Nat → Nat) (lat : Nat)
    (locked : RS → Nat → Bool) (c : Core) : Core :=
  (((c.commit).writeback).execute compute lat locked).issue

/-- Iterated cycles. -/
def Core.run (compute : Instr → Nat → Nat → Nat) (lat : Nat)
    (locked : RS → Nat → Bool) : Nat → Core → Core
  | 0, c => c
  | n + 1, c => Core.run compute lat locked n (c.cycle compute lat locked)

/-- The successfully decoded instructions of a program of
(word, pc, uuid) triples, in order — the contents the front-end feeds into
the issue queue. -/
def decodeProg (prog : List (Nat × Nat × Nat)) : List Instr :=
  prog.filterMap (fun w =>
    match decode w.1 w.2.1 w.2.2 with
    | .ok i => some i
    | _ => none)

/-- The initial core state of §8's scenarios: all-zero register file, empty
RAT/ROB/RS/RST/CDB, idle FUs, and the decoded program in the issue queue. -/
def initCore (nrs ncap : Nat) (queue : List Instr) : Core :=
  { issue_queue := queue,
    reg_file := List.replicate 32 0,
    rat := List.replicate 32 none,
    rob := { slots := List.replicate ncap {} },
    rs := { entries := List.replicate nrs {} },
    rst := [],
    cdb := none,
    fus := List.replicate 4 {} }

/-- Scenario 1 of §8, pipeline part: one issue → dispatch → broadcast →
writeback → commit pass retires `ADDI x1, x0, 5` with `reg[1] = 5`. -/
theorem scenario1_addi_check :
    ((initCore 16 32 (decodeProg [(0x00500093, 0, 0)])).run
      (fun i a _ => a + i.imm) 0 (fun _ _ => false) 5).reg_file.getD 1 0 = 5 ∧
    ((initCore 16 32 (decodeProg [(0x00500093, 0, 0)])).run
      (fun i a _ => a + i.imm) 0 (fun _ _ => false) 5).retired = 1 := by
  constructor <;> rfl

/-! ## Helper lemmas -/

/-- The instruction carried by a successful decode. -/
def decodedInstr? : DecodeResult → Option Instr
  | .ok i => some i
  | _ => none

/-- Inversion of a successful decode into its three stages and the final
field assembly. -/
theorem decode_ok_inv (w pc u : Nat) (i : Instr) (h : decode w pc u = .ok i) :
    ∃ opcode flags0 imm alu br flags2,
      opcodeOf ((w % 2 ^ 32) &&& 0x7f) = some opcode ∧
      classDecode opcode (w % 2 ^ 32) (((w % 2 ^ 32) >>> 12) &&& 0x7)
        (((w % 2 ^ 32) >>> 7) &&& 0x1f) (((w % 2 ^ 32) >>> 20) &&& 0x1f)
        (((w % 2 ^ 32) >>> 25) &&& 0x7f) = some (flags0, imm) ∧
      opDecode opcode (((w % 2 ^ 32) >>> 12) &&& 0x7)
        (((w % 2 ^ 32) >>> 25) &&& 0x7f) imm
        (rd0Fix flags0 (((w % 2 ^ 32) >>> 7) &&& 0x1f)) = some (alu, br, flags2) ∧
      i = { uuid := u, PC := pc, opcode := opcode,
            rd := ((w % 2 ^ 32) >>> 7) &&& 0x1f,
            rs1 := ((w % 2 ^ 32) >>> 15) &&& 0x1f,
            rs2 := ((w % 2 ^ 32) >>> 20) &&& 0x1f,
            imm := imm, func3 := ((w % 2 ^ 32) >>> 12) &&& 0x7,
            func7 := ((w % 2 ^ 32) >>> 25) &&& 0x7f,
            alu_op := alu, br_op := br, exe_flags := flags2,
            fu_type := fuRoute flags2 br } := by
  simp only [decode] at h
  split at h
  · exact absurd h (by simp)
  · split at h
    · exact absurd h (by simp)
    · split at h
      · exact absurd h (by simp)
      · rename_i opcode hop p flags0 imm hclass q alu br flags2 hopd
        refine ⟨opcode, flags0, imm, alu, br, flags2, hop, ?_, ?_, ?_⟩
        · exact hclass
        · exact hopd
        · cases h; rfl

/-! ## Claims -/

/-- C1 (amended): `decode` returns none exactly when the top-level 7-bit
opcode field is outside the recognized set; for an unrecognized
func3/func7/imm combination inside a recognized opcode it does not return
none but terminates the process (`std::abort`), modelled as the distinct
`aborted` outcome. -/
theorem C1_decode_none_iff_bad_opcode (w pc u : Nat) :
    decode w pc u = DecodeResult.invalid ↔
      opcodeOf ((w % 2 ^ 32) &&& 0x7f) = none := by
  simp only [decode]
  split
  · rename_i hop
    exact ⟨fun _ => hop, fun _ => rfl⟩
  · rename_i opcode hop
    simp only [hop]
    constructor
    · intro h
      split at h
      · simp at h
      · split at h <;> simp at h
    · intro h
      simp at h

/-- C1 counterexample: the word 0x2063 has the recognized B opcode (0x63)
with the unrecognized func3 = 2; decode terminates (`std::abort`) instead of
returning none as the claim states. -/
theorem C1_counterexample :
    (opcodeOf ((0x2063 : Nat) &&& 0x7f)).isSome = true ∧
    decode 0x2063 0 0 = DecodeResult.aborted ∧
    DecodeResult.aborted ≠ DecodeResult.invalid := by decide

/-- C1 witness: on a word whose opcode field (0x7f) is unrecognized, decode
returns none. -/
theorem C1_witness :
    decode 0xFFFFFFFF 0 0 = DecodeResult.invalid ↔
      opcodeOf ((0xFFFFFFFF % 2 ^ 32) &&& 0x7f) = none :=
  C1_decode_none_iff_bad_opcode 0xFFFFFFFF 0 0

/-- C10: every successfully decoded instruction carries the raw bit fields
of the word — rd = instr[11:7], rs1 = instr[19:15], rs2 = instr[24:20],
func3 = instr[14:12], func7 = instr[31:25] — regardless of which use flags
are set. -/
theorem C10_decode_raw_fields (w pc u : Nat) (i : Instr)
    (h : decode w pc u = .ok i) :
    i.rd = ((w % 2 ^ 32) >>> 7) &&& 0x1f ∧
    i.rs1 = ((w % 2 ^ 32) >>> 15) &&& 0x1f ∧
    i.rs2 = ((w % 2 ^ 32) >>> 20) &&& 0x1f ∧
    i.func3 = ((w % 2 ^ 32) >>> 12) &&& 0x7 ∧
    i.func7 = ((w % 2 ^ 32) >>> 25) &&& 0x7f := by
  obtain ⟨op, f0, imm, alu, br, f2, _, _, _, hi⟩ := decode_ok_inv w pc u i h
  subst hi
  exact ⟨rfl, rfl, rfl, rfl, rfl⟩

/-- The decoded form of `SW x5, 0(x0)` (0x00502023), a store: its `rd`
field is populated even though the instruction writes no destination. -/
def swInstr : Instr :=
  { uuid := 0, PC := 0, opcode := .S, rd := 0, rs1 := 0, rs2 := 5, imm := 0,
    func3 := 2, func7 := 0, alu_op := .ADD, br_op := .NONE,
    exe_flags := { use_rs1 := true, use_rs2 := true, use_imm := true,
                   alu_s2_imm := true, is_store := true },
    fu_type := .LSU }

/-- C10 witness: the raw fields of the decoded store `SW x5, 0(x0)`. -/
theorem C10_witness :
    swInstr.rd = ((0x00502023 % 2 ^ 32) >>> 7) &&& 0x1f ∧
    swInstr.rs1 = ((0x00502023 % 2 ^ 32) >>> 15) &&& 0x1f ∧
    swInstr.rs2 = ((0x00502023 % 2 ^ 32) >>> 20) &&& 0x1f ∧
    swInstr.func3 = ((0x00502023 % 2 ^ 32) >>> 12) &&& 0x7 ∧
    swInstr.func7 = ((0x00502023 % 2 ^ 32) >>> 25) &&& 0x7f :=
  C10_decode_raw_fields 0x00502023 0 0 swInstr (by decide)

set_option maxRecDepth 4096 in
/-- C4 (amended): for every successfully decoded R-type or I-type
arithmetic instruction, the ALU micro-op for func3=0 is SUB exactly when
the instruction is R-type and func7 is nonzero (ADD otherwise), and for
func3=5 it is SRA exactly when func7 is nonzero (SRL otherwise). -/
theorem C4_alu_op_select (w pc u : Nat) (i : Instr)
    (h : decode w pc u = .ok i) (hop : i.opcode = .R ∨ i.opcode = .I) :
    (i.func3 = 0 →
      ((i.alu_op = .SUB ↔ i.opcode = .R ∧ i.func7 ≠ 0) ∧
       ((i.opcode = .I ∨ i.func7 = 0) → i.alu_op = .ADD))) ∧
    (i.func3 = 5 →
      ((i.alu_op = .SRA ↔ i.func7 ≠ 0) ∧ (i.func7 = 0 → i.alu_op = .SRL))) := by
  obtain ⟨op, f0, imm, alu, br, f2, hopc, hclass, hopd, hi⟩ :=
    decode_ok_inv w pc u i h
  subst hi
  dsimp only at hop ⊢
  clear hclass hopc h
  constructor <;> intro hf3 <;> rw [hf3] at hopd <;>
    rcases hop with rfl | rfl <;>
    simp only [opDecode] at hopd <;>
    split at hopd <;>
    simp only [Option.some.injEq, Prod.mk.injEq] at hopd <;>
    obtain ⟨ha, hb, hf⟩ := hopd <;> subst ha <;> simp_all

/-- C4 counterexample: the R-type word 0x022080B3 has func7 = 1, whose
bit 5 is clear, yet decode selects SUB — refuting the claim that the
selection depends only on bit 5 of func7. -/
theorem C4_counterexample :
    ((0x022080B3 : Nat) >>> 25) &&& 0x20 = 0 ∧
    (decodedInstr? (decode 0x022080B3 0 0)).map Instr.alu_op =
      some AluOp.SUB := by decide

/-- The decoded form of `ADDI x1, x0, 5` (0x00500093). -/
def addiInstr : Instr :=
  { uuid := 0, PC := 0, opcode := .I, rd := 1, rs1 := 0, rs2 := 5, imm := 5,
    func3 := 0, func7 := 0, alu_op := .ADD, br_op := .NONE,
    exe_flags := { use_rd := true, use_rs1 := true, use_imm := true,
                   alu_s2_imm := true },
    fu_type := .ALU }

/-- C4 witness: the micro-op selection evaluated on the decoded
`ADDI x1, x0, 5`. -/
theorem C4_witness :
    (addiInstr.func3 = 0 →
      ((addiInstr.alu_op = .SUB ↔ addiInstr.opcode = .R ∧ addiInstr.func7 ≠ 0) ∧
       ((addiInstr.opcode = .I ∨ addiInstr.func7 = 0) → addiInstr.alu_op = .ADD))) ∧
    (addiInstr.func3 = 5 →
      ((addiInstr.alu_op = .SRA ↔ addiInstr.func7 ≠ 0) ∧
       (addiInstr.func7 = 0 → addiInstr.alu_op = .SRL))) :=
  C4_alu_op_select 0x00500093 0 0 addiInstr (by decide) (Or.inr (by decide))

theorem and_one_eq (x : Nat) : x &&& 1 = x % 2 :=
  Nat.and_pow_two_sub_one_eq_mod x 1

theorem and15_eq (x : Nat) : x &&& 15 = x % 16 :=
  Nat.and_pow_two_sub_one_eq_mod x 4

theorem and31_eq (x : Nat) : x &&& 31 = x % 32 :=
  Nat.and_pow_two_sub_one_eq_mod x 5

theorem and63_eq (x : Nat) : x &&& 63 = x % 64 :=
  Nat.and_pow_two_sub_one_eq_mod x 6

theorem and127_eq (x : Nat) : x &&& 127 = x % 128 :=
  Nat.and_pow_two_sub_one_eq_mod x 7

/-- The B-type immediate as §4.1 of the spec writes it:
`sext((instr[7]<<11) | (instr[11:8]<<1) | (instr[30:25]<<5) | (instr[31]<<12), 13)`. -/
def bImmSpec (w : Nat) : Nat :=
  sext ((((w >>> 7) &&& 0x1) <<< 11) ||| (((w >>> 8) &&& 0xf) <<< 1) |||
        (((w >>> 25) &&& 0x3f) <<< 5) ||| (((w >>> 31) &&& 0x1) <<< 12)) 13

set_option maxRecDepth 100000 in
/-- Kernel fact behind C7: over the 5-bit rd field and the 7-bit func7
field, the immediate decode.cpp assembles for B-type equals the spec's
assembly, and it is always even. -/
theorem bImm_kernel : ∀ r < 32, ∀ q < 128,
    sext (((r >>> 1) <<< 1) ||| ((q &&& 0x3f) <<< 5) ||| ((r &&& 0x1) <<< 11) |||
          ((q >>> 6) <<< 12)) 13
      = sext (((r &&& 0x1) <<< 11) ||| ((r >>> 1) <<< 1) ||| ((q &&& 0x3f) <<< 5) |||
          ((q >>> 6) <<< 12)) 13 ∧
    sext (((r >>> 1) <<< 1) ||| ((q &&& 0x3f) <<< 5) ||| ((r &&& 0x1) <<< 11) |||
          ((q >>> 6) <<< 12)) 13 % 2 = 0 := by decide

/-- C7: for every B-type instruction word that decodes, the decoded
immediate equals the spec's 13-bit assembly
`sext((instr[7]<<11) | (instr[11:8]<<1) | (instr[30:25]<<5) | (instr[31]<<12), 13)`
and its bit 0 is zero. -/
theorem C7_b_type_imm (w pc u : Nat) (i : Instr) (h : decode w pc u = .ok i)
    (hop : (w % 2 ^ 32) &&& 0x7f = 0x63) :
    i.imm = bImmSpec (w % 2 ^ 32) ∧ i.imm % 2 = 0 := by
  obtain ⟨op, f0, imm, alu, br, f2, hopc, hclass, hopd, hi⟩ :=
    decode_ok_inv w pc u i h
  rw [hop] at hopc
  have hB : op = Opcode.B := by
    have hx : opcodeOf 0x63 = some Opcode.B := rfl
    rw [hx, Option.some.injEq] at hopc
    exact hopc.symm
  subst hB
  simp only [classDecode, sc_instTable, Option.some.injEq, Prod.mk.injEq] at hclass
  obtain ⟨-, himm⟩ := hclass
  subst hi
  dsimp only
  rw [← himm]
  set ic := w % 2 ^ 32 with hic
  set r := (ic >>> 7) &&& 0x1f with hrdef
  set q := (ic >>> 25) &&& 0x7f with hqdef
  have hrlt : r < 32 := by rw [hrdef, and31_eq]; exact Nat.mod_lt _ (by norm_num)
  have hqlt : q < 128 := by rw [hqdef, and127_eq]; exact Nat.mod_lt _ (by norm_num)
  have e1 : (ic >>> 7) &&& 0x1 = r &&& 0x1 := by
    rw [hrdef, and_one_eq, and31_eq, and_one_eq]
    omega
  have e2 : (ic >>> 8) &&& 0xf = r >>> 1 := by
    rw [hrdef]
    simp only [and15_eq, and31_eq, Nat.shiftRight_eq_div_pow]
    norm_num
    omega
  have e3 : (ic >>> 25) &&& 0x3f = q &&& 0x3f := by
    rw [hqdef, and63_eq, and127_eq, and63_eq]
    omega
  have e4 : (ic >>> 31) &&& 0x1 = q >>> 6 := by
    rw [hqdef]
    simp only [and_one_eq, and127_eq, Nat.shiftRight_eq_div_pow]
    norm_num
    omega
  rw [bImmSpec, e1, e2, e3, e4]
  exact ⟨(bImm_kernel r hrlt q hqlt).1, (bImm_kernel r hrlt q hqlt).2⟩

/-- The decoded form of `BEQ x0, x0, +8` (0x00000463). -/
def beqInstr : Instr :=
  { uuid := 0, PC := 0, opcode := .B, rd := 8, rs1 := 0, rs2 := 0, imm := 8,
    func3 := 0, func7 := 0, alu_op := .ADD, br_op := .BEQ,
    exe_flags := { use_rs1 := true, use_rs2 := true, use_imm := true,
                   alu_s2_imm := true, alu_s1_PC := true },
    fu_type := .BRU }

/-- C7 witness: the immediate of the decoded `BEQ x0, x0, +8`. -/
theorem C7_witness :
    beqInstr.imm = bImmSpec (0x00000463 % 2 ^ 32) ∧ beqInstr.imm % 2 = 0 :=
  C7_b_type_imm 0x00000463 0 0 beqInstr (by decide) (by decide)

theorem getD_set_self {α} (l : List α) (i : Nat) (a d : α) (h : i < l.length) :
    (l.set i a).getD i d = a := by
  simp [List.getD_eq_getElem?_getD, List.getElem?_set_self h]

theorem getD_set_ne {α} (l : List α) (i j : Nat) (a d : α) (h : i ≠ j) :
    (l.set i a).getD j d = l.getD j d := by
  simp [List.getD_eq_getElem?_getD, List.getElem?_set_ne h]

/-- C9: when the issue stage stalls — empty issue queue, full RS, or full
ROB — the issue step leaves the entire core state unchanged: nothing is
allocated, mapped, issued or popped. -/
theorem C9_issue_stall_frame (c : Core)
    (h : c.issue_queue = [] ∨ c.rs.full = true ∨ c.rob.full = true) :
    c.issue = c := by
  cases hq : c.issue_queue with
  | nil => unfold Core.issue; rw [hq]
  | cons a rest =>
    rcases h with h | h | h
    · rw [h] at hq; cases hq
    · unfold Core.issue
      rw [hq]
      simp [h]
    · unfold Core.issue
      rw [hq]
      simp [h]

/-- A core whose issue queue is empty. -/
def stallCore : Core := initCore 2 2 []

/-- C9 witness: the stalled issue step on a concrete core with an empty
issue queue. -/
theorem C9_witness : stallCore.issue = stallCore :=
  C9_issue_stall_frame stallCore (Or.inl rfl)

/-- A fresh core (16 RS slots, 32 ROB entries) whose issue queue holds the
decoded `ADDI x1, x0, 5`. -/
def c3Start : Core := initCore 16 32 (decodeProg [(0x00500093, 0, 0)])

/-- C2/C3 bug demonstration state and outputs. -/
def fuOutA : CDBData := { result := 5, rob_index := 0, rs_index := 0 }

def fuOutB : CDBData := { result := 7, rob_index := 1, rs_index := 1 }

/-- A core in which functional units 0 and 1 both report done. -/
def c2Start : Core :=
  { initCore 16 32 [] with
      fus := [{ busy := true, countdown := 0, out := fuOutA },
              { busy := true, countdown := 0, out := fuOutB }, {}, {}] }

/-- C2 (code bug): with two functional units done in the same execute step,
the source's loop (ooo.cpp lines 134-142, with no break) clears both units;
the CDB keeps only the first unit's value, so the second done unit is
cleared that cycle in violation of the claim (and of the comment above the
loop) and its result is lost. -/
theorem C2_execute_clears_all_done_fus :
    ((c2Start.fus.getD 0 {}).done = true ∧ (c2Start.fus.getD 1 {}).done = true) ∧
    (c2Start.execute (fun _ _ _ => 0) 0 (fun _ _ => false)).cdb = some fuOutA ∧
    ((c2Start.execute (fun _ _ _ => 0) 0 (fun _ _ => false)).fus.getD 1 {}).busy
      = false := by decide

/-- C3 (code bug): issuing the decoded `ADDI x1, x0, 5` into a fresh core
allocates ROB entry 0 and RS slot 0, yet the RST write of ooo.cpp
lines 113-114 lands on the operand tags (index −1 here) and the entry
RST[rob_index] = RST[0] that the claim requires is never written. -/
theorem C3_rst_written_at_tag_not_rob_index :
    rstGet (c3Start.issue).rst (-1) = some 0 ∧
    rstGet (c3Start.issue).rst (Int.ofNat 0) = none := by decide

/-- C5: when the ROB head is ready and has `use_rd`, commit writes the
result to `reg_file[rd]`, clears RAT[rd] exactly when RAT[rd] still equals
the head's ROB index, and leaves the RAT untouched when a later in-flight
writer has remapped rd to a different ROB index. -/
theorem C5_commit_rat_guard (c : Core)
    (hne : c.rob.isEmpty = false)
    (hready : (c.rob.getEntry c.rob.head).ready = true)
    (hrd : (c.rob.getEntry c.rob.head).instr.exe_flags.use_rd = true) :
    (c.commit).reg_file =
      c.reg_file.set (c.rob.getEntry c.rob.head).instr.rd
        (c.rob.getEntry c.rob.head).result ∧
    (ratGet c.rat (c.rob.getEntry c.rob.head).instr.rd = Int.ofNat c.rob.head →
      (c.commit).rat = ratClear c.rat (c.rob.getEntry c.rob.head).instr.rd) ∧
    (ratGet c.rat (c.rob.getEntry c.rob.head).instr.rd ≠ Int.ofNat c.rob.head →
      (c.commit).rat = c.rat) := by
  unfold Core.commit
  rw [if_neg (by simp [hne]), if_pos hready]
  dsimp only
  rw [if_pos hrd]
  refine ⟨rfl, ?_, ?_⟩
  · intro heq
    dsimp only
    rw [if_pos (by simp [heq])]
  · intro hne2
    dsimp only
    rw [if_neg (by simpa using hne2)]

/-- A core whose ROB head (index 0) holds a ready `ADDI x1, x0, 5` with
result 5, and whose RAT still maps x1 to that ROB index. -/
def c5Core : Core :=
  { issue_queue := [],
    reg_file := List.replicate 32 0,
    rat := (List.replicate 32 (none : Option Nat)).set 1 (some 0),
    rob := { slots := (List.replicate 8 ({} : ROBEntry)).set 0
               { instr := addiInstr, result := 5, ready := true },
             head := 0, count := 1 },
    rs := { entries := List.replicate 4 {} },
    rst := [],
    cdb := none,
    fus := List.replicate 4 {} }

/-- C5 witness: committing the ready head of `c5Core`. -/
theorem C5_witness :
    (c5Core.commit).reg_file =
      c5Core.reg_file.set (c5Core.rob.getEntry c5Core.rob.head).instr.rd
        (c5Core.rob.getEntry c5Core.rob.head).result ∧
    (ratGet c5Core.rat (c5Core.rob.getEntry c5Core.rob.head).instr.rd =
        Int.ofNat c5Core.rob.head →
      (c5Core.commit).rat =
        ratClear c5Core.rat (c5Core.rob.getEntry c5Core.rob.head).instr.rd) ∧
    (ratGet c5Core.rat (c5Core.rob.getEntry c5Core.rob.head).instr.rd ≠
        Int.ofNat c5Core.rob.head →
      (c5Core.commit).rat = c5Core.rat) :=
  C5_commit_rat_guard c5Core (by decide) (by decide) (by decide)

/-- The RS entry written by `RS::issue` at the selected free slot. -/
theorem RS.getEntry_issueEntry_self (rs : RS) (rob : Nat) (t1 t2 : Int)
    (d1 d2 : Nat) (ins : Instr) (j : Nat) (hj : rs.freeIdx = some j) :
    ((rs.issueEntry rob t1 t2 d1 d2 ins).1).getEntry j =
      { valid := true, running := false, instr := ins, rob_index := rob,
        rs1_tag := t1, rs2_tag := t2, rs1_data := d1, rs2_data := d2 } := by
  have hjlt : j < rs.entries.length :=
    (List.findIdx?_eq_some_iff_findIdx_eq.mp hj).1
  unfold RS.issueEntry
  rw [hj]
  dsimp only [RS.getEntry]
  exact getD_set_self _ _ _ _ hjlt

/-- C8: for each source register an issuing instruction uses, the operand
recorded in the reservation station comes from the ROB result (tag −1) when
the RAT maps it to a ready ROB entry, is left pending with the ROB index as
tag when that entry is not ready, and comes from the register file (tag −1)
when the RAT has no mapping. -/
theorem C8_issue_operand_sources (c : Core) (instr : Instr) (rest : List Instr)
    (hq : c.issue_queue = instr :: rest)
    (hrs : c.rs.full = false) (hrob : c.rob.full = false)
    (j : Nat) (hj : c.rs.freeIdx = some j) :
    (instr.exe_flags.use_rs1 = true →
      (∀ t, c.rat.getD instr.rs1 none = some t →
        ((c.rob.getEntry t).ready = true →
          ((c.issue).rs.getEntry j).rs1_data = (c.rob.getEntry t).result ∧
          ((c.issue).rs.getEntry j).rs1_tag = -1) ∧
        ((c.rob.getEntry t).ready = false →
          ((c.issue).rs.getEntry j).rs1_tag = Int.ofNat t)) ∧
      (c.rat.getD instr.rs1 none = none →
        ((c.issue).rs.getEntry j).rs1_data = c.reg_file.getD instr.rs1 0 ∧
        ((c.issue).rs.getEntry j).rs1_tag = -1)) ∧
    (instr.exe_flags.use_rs2 = true →
      (∀ t, c.rat.getD instr.rs2 none = some t →
        ((c.rob.getEntry t).ready = true →
          ((c.issue).rs.getEntry j).rs2_data = (c.rob.getEntry t).result ∧
          ((c.issue).rs.getEntry j).rs2_tag = -1) ∧
        ((c.rob.getEntry t).ready = false →
          ((c.issue).rs.getEntry j).rs2_tag = Int.ofNat t)) ∧
      (c.rat.getD instr.rs2 none = none →
        ((c.issue).rs.getEntry j).rs2_data = c.reg_file.getD instr.rs2 0 ∧
        ((c.issue).rs.getEntry j).rs2_tag = -1)) := by
  unfold Core.issue
  rw [hq]
  dsimp only
  rw [if_neg (by simp [hrs]), if_neg (by simp [hrob])]
  dsimp only
  rw [RS.getEntry_issueEntry_self c.rs _ _ _ _ _ _ j hj]
  refine ⟨fun huse => ⟨fun t ht => ⟨fun hr => ?_, fun hr => ?_⟩, fun hnone => ?_⟩,
          fun huse => ⟨fun t ht => ⟨fun hr => ?_, fun hr => ?_⟩, fun hnone => ?_⟩⟩ <;>
    simp_all [ratExists, ratGet]

/-- C8 witness: issuing `ADDI x1, x0, 5` into the fresh core `c3Start`;
the instruction uses rs1 = x0, for which the RAT has no mapping. -/
theorem C8_witness :
    (addiInstr.exe_flags.use_rs1 = true →
      (∀ t, c3Start.rat.getD addiInstr.rs1 none = some t →
        ((c3Start.rob.getEntry t).ready = true →
          ((c3Start.issue).rs.getEntry 0).rs1_data = (c3Start.rob.getEntry t).result ∧
          ((c3Start.issue).rs.getEntry 0).rs1_tag = -1) ∧
        ((c3Start.rob.getEntry t).ready = false →
          ((c3Start.issue).rs.getEntry 0).rs1_tag = Int.ofNat t)) ∧
      (c3Start.rat.getD addiInstr.rs1 none = none →
        ((c3Start.issue).rs.getEntry 0).rs1_data = c3Start.reg_file.getD addiInstr.rs1 0 ∧
        ((c3Start.issue).rs.getEntry 0).rs1_tag = -1)) ∧
    (addiInstr.exe_flags.use_rs2 = true →
      (∀ t, c3Start.rat.getD addiInstr.rs2 none = some t →
        ((c3Start.rob.getEntry t).ready = true →
          ((c3Start.issue).rs.getEntry 0).rs2_data = (c3Start.rob.getEntry t).result ∧
          ((c3Start.issue).rs.getEntry 0).rs2_tag = -1) ∧
        ((c3Start.rob.getEntry t).ready = false →
          ((c3Start.issue).rs.getEntry 0).rs2_tag = Int.ofNat t)) ∧
      (c3Start.rat.getD addiInstr.rs2 none = none →
        ((c3Start.issue).rs.getEntry 0).rs2_data = c3Start.reg_file.getD addiInstr.rs2 0 ∧
        ((c3Start.issue).rs.getEntry 0).rs2_tag = -1)) :=
  C8_issue_operand_sources c3Start addiInstr [] (by decide) (by decide)
    (by decide) 0 (by decide)

/-! ## The x0 invariant (C6) -/

/-- A decoded instruction never names x0 as an active destination. -/
def wfInstr (i : Instr) : Prop := i.exe_flags.use_rd = true → i.rd ≠ 0

/-- The opcode-decoding stage never touches `use_rd`. -/
theorem opDecode_use_rd (op : Opcode) (f3 f7 imm : Nat) (f : ExeFlags)
    (a : AluOp) (b : BrOp) (f2 : ExeFlags)
    (h : opDecode op f3 f7 imm f = some (a, b, f2)) : f2.use_rd = f.use_rd := by
  cases op <;> simp only [opDecode] at h <;> repeat' split at h
  all_goals cases h
  all_goals rfl

/-- After the x0-discard rule, an active destination is nonzero. -/
theorem rd0Fix_use_rd_ne_zero (f : ExeFlags) (rd : Nat)
    (h : (rd0Fix f rd).use_rd = true) : rd ≠ 0 := by
  unfold rd0Fix at h
  split at h
  · simp at h
  · rename_i hc
    intro h0
    subst h0
    simp_all

/-- Every successfully decoded instruction satisfies the x0 invariant. -/
theorem decode_wfInstr (w pc u : Nat) (i : Instr) (h : decode w pc u = .ok i) :
    wfInstr i := by
  obtain ⟨op, f0, imm, alu, br, f2, hopc, hclass, hopd, hi⟩ :=
    decode_ok_inv w pc u i h
  subst hi
  intro hrd
  dsimp only at hrd ⊢
  have hpres := opDecode_use_rd op _ _ imm _ alu br f2 hopd
  rw [hrd] at hpres
  exact rd0Fix_use_rd_ne_zero f0 _ hpres.symm

/-- The destination field of a successful decode is the raw rd bits. -/
theorem decode_rd_eq (w pc u : Nat) (i : Instr) (h : decode w pc u = .ok i) :
    i.rd = ((w % 2 ^ 32) >>> 7) &&& 0x1f := by
  obtain ⟨op, f0, imm, alu, br, f2, hopc, hclass, hopd, hi⟩ :=
    decode_ok_inv w pc u i h
  subst hi
  rfl

/-- The per-cycle invariant behind the x0 rule: every queued and every
ROB-resident instruction respects `wfInstr`, and `reg_file[0]` is 0. -/
def wfCore (c : Core) : Prop :=
  (∀ i ∈ c.issue_queue, wfInstr i) ∧
  (∀ e ∈ c.rob.slots, wfInstr e.instr) ∧
  c.reg_file.getD 0 0 = 0

/-- The default (stale-slot) instruction trivially satisfies `wfInstr`. -/
theorem wfInstr_default : wfInstr ({} : Instr) := fun h => by cases h

theorem wf_slot_getD (slots : List ROBEntry)
    (h : ∀ e ∈ slots, wfInstr e.instr) (i : Nat) :
    wfInstr ((slots.getD i {}).instr) := by
  rcases Nat.lt_or_ge i slots.length with hlt | hge
  · rw [List.getD_eq_getElem?_getD, List.getElem?_eq_getElem hlt]
    exact h _ (List.getElem_mem hlt)
  · rw [List.getD_eq_getElem?_getD, List.getElem?_eq_none hge]
    exact wfInstr_default

theorem Core.commit_wf (c : Core) (h : wfCore c) : wfCore c.commit := by
  obtain ⟨hq, hrob, hreg⟩ := h
  unfold Core.commit
  split
  · exact ⟨hq, hrob, hreg⟩
  · dsimp only
    split
    · refine ⟨hq, fun e he => hrob e he, ?_⟩
      dsimp only
      split
      · rename_i hurd
        have hne : (c.rob.getEntry c.rob.head).instr.rd ≠ 0 :=
          wf_slot_getD c.rob.slots hrob c.rob.head hurd
        rw [getD_set_ne _ _ _ _ _ hne]
        exact hreg
      · exact hreg
    · exact ⟨hq, hrob, hreg⟩

theorem Core.writeback_wf (c : Core) (h : wfCore c) : wfCore c.writeback := by
  obtain ⟨hq, hrob, hreg⟩ := h
  unfold Core.writeback
  split
  · exact ⟨hq, hrob, hreg⟩
  · refine ⟨hq, ?_, hreg⟩
    intro e he
    dsimp only [ROB.update] at he
    rcases List.mem_or_eq_of_mem_set he with h1 | h1
    · exact hrob e h1
    · subst h1
      exact wf_slot_getD _ hrob _

theorem Core.execute_wf (compute : Instr → Nat → Nat → Nat) (lat : Nat)
    (locked : RS → Nat → Bool) (c : Core) (h : wfCore c) :
    wfCore (c.execute compute lat locked) := h

theorem Core.issue_wf (c : Core) (h : wfCore c) : wfCore c.issue := by
  obtain ⟨hq, hrob, hreg⟩ := h
  unfold Core.issue
  split
  · exact ⟨hq, hrob, hreg⟩
  · rename_i instr rest hqe
    split
    · exact ⟨hq, hrob, hreg⟩
    · split
      · exact ⟨hq, hrob, hreg⟩
      · refine ⟨?_, ?_, hreg⟩
        · intro i hi
          exact hq i (by rw [hqe]; exact List.mem_cons_of_mem _ hi)
        · intro e he
          dsimp only [ROB.allocate] at he
          rcases List.mem_or_eq_of_mem_set he with h1 | h1
          · exact hrob e h1
          · subst h1
            exact hq instr (by rw [hqe]; exact List.mem_cons_self _ _)

theorem Core.cycle_wf (compute : Instr → Nat → Nat → Nat) (lat : Nat)
    (locked : RS → Nat → Bool) (c : Core) (h : wfCore c) :
    wfCore (c.cycle compute lat locked) :=
  Core.issue_wf _
    (Core.execute_wf compute lat locked _ (Core.writeback_wf _ (Core.commit_wf _ h)))

theorem Core.run_wf (compute : Instr → Nat → Nat → Nat) (lat : Nat)
    (locked : RS → Nat → Bool) :
    ∀ (n : Nat) (c : Core), wfCore c → wfCore (Core.run compute lat locked n c)
  | 0, _, h => h
  | n + 1, c, h =>
    Core.run_wf compute lat locked n _ (Core.cycle_wf compute lat locked c h)

theorem initCore_wf (nrs ncap : Nat) (prog : List (Nat × Nat × Nat)) :
    wfCore (initCore nrs ncap (decodeProg prog)) := by
  refine ⟨?_, ?_, ?_⟩
  · intro i hi
    rw [decodeProg] at hi
    obtain ⟨⟨w, pc, u⟩, hmem, hdec⟩ := List.mem_filterMap.mp hi
    revert hdec
    cases hd : decode w pc u with
    | ok j =>
      intro hdec
      rw [Option.some.injEq] at hdec
      subst hdec
      exact decode_wfInstr w pc u _ hd
    | invalid => intro hdec; cases hdec
    | aborted => intro hdec; cases hdec
  · intro e he
    rw [List.eq_of_mem_replicate he]
    exact wfInstr_default
  · rfl

/-- C6: decode clears `use_rd` whenever the encoded rd field is 0, and
consequently commit never writes the register file for such an
instruction: starting from a register file whose element 0 is zero, the
committed `reg_file[0]` reads 0 after every cycle of every program,
for every functional-unit datapath, latency and lock policy. -/
theorem C6_x0_never_written :
    (∀ w pc u i, decode w pc u = DecodeResult.ok i →
        ((w % 2 ^ 32) >>> 7) &&& 0x1f = 0 → i.exe_flags.use_rd = false) ∧
    (∀ (compute : Instr → Nat → Nat → Nat) (lat : Nat)
        (locked : RS → Nat → Bool) (prog : List (Nat × Nat × Nat))
        (nrs ncap n : Nat),
      ((initCore nrs ncap (decodeProg prog)).run compute lat
          locked n).reg_file.getD 0 0 = 0) := by
  constructor
  · intro w pc u i h hrd0
    cases hb : i.exe_flags.use_rd
    · rfl
    · exact absurd (by rw [decode_rd_eq w pc u i h, hrd0])
        (fun h2 => (decode_wfInstr w pc u i h hb) h2)
  · intro compute lat locked prog nrs ncap n
    exact (Core.run_wf compute lat locked n _ (initCore_wf nrs ncap prog)).2.2

/-- The decoded form of the canonical NOP `ADDI x0, x0, 0` (0x00000013):
its rd field is 0, so decode has cleared `use_rd`. -/
def nopInstr : Instr :=
  { uuid := 0, PC := 0, opcode := .I, rd := 0, rs1 := 0, rs2 := 0, imm := 0,
    func3 := 0, func7 := 0, alu_op := .ADD, br_op := .NONE,
    exe_flags := { use_rs1 := true, use_imm := true, alu_s2_imm := true },
    fu_type := .ALU }

/-- C6 witness: the NOP's `use_rd` is cleared, and after six cycles of a
one-NOP program `reg_file[0]` still reads 0. -/
theorem C6_witness :
    nopInstr.exe_flags.use_rd = false ∧
    ((initCore 4 4 (decodeProg [(0x00000013, 0, 0)])).run (fun _ _ _ => 0) 0
        (fun _ _ => false) 6).reg_file.getD 0 0 = 0 :=
  ⟨C6_x0_never_written.1 0x00000013 0 0 nopInstr (by decide) (by decide),
   C6_x0_never_written.2 (fun _ _ _ => 0) 0 (fun _ _ => false)
     [(0x00000013, 0, 0)] 4 4 6⟩

end TinyRV
